import Mathlib

/-
Shallow embedding of the core of the ov-dgxc-portal-sample web client:

* cross-tab token renewal (the onRenew handler of AuthProvider, part_003),
* the streaming-session lifecycle (useStream / checkSession / terminate,
  part_006, and the terminate handler of the AppStream page),
* session creation with bounded retry (useStreamStart, part_007),
* the session-end warning watcher (useStreamEndNotification.tsx),
* the backend session API wrappers (state/Sessions.ts).

Stateful browser code is embedded as explicit state passing: each handler
becomes a Lean function from its inputs (lock availability, network
outcomes, component state) to the list of observable actions it performs
and the successor state.  Time is modelled in whole seconds as Int.
-/

/-- Outcome of the identity provider silent-renewal call
(`auth.userManager.signinSilent()` in AuthProvider): the promise resolves
with a user, resolves with no user, or rejects with an error. -/
inductive SilentResult
  | user
  | noUser
  | failure
  deriving DecidableEq, Repr

/-- Observable steps of the `onRenew` handler in AuthProvider, in the order
the source performs them.  `storeToken` is the identity library persisting
the renewed token into the configured user store (localStorage), which
happens inside `signinSilent` before it resolves; `postRenewal` is
`channel.postMessage({type: "renewal"})`; `cooldownHold ms` is the
`setTimeout`-based hold of the Web Lock; `releaseLock` is the lock being
released when the lock callback returns. -/
inductive RenewAction
  | logLockUnavailable
  | silentRenewCall
  | storeToken
  | postRenewal
  | cooldownHold (ms : Nat)
  | signinRedirect
  | logRenewError
  | releaseLock
  deriving DecidableEq, Repr

/-- Embedding of the body of `onRenew` (AuthProvider): the callback passed to
`navigator.locks.request("auth-renewal", {mode: "exclusive", ifAvailable:
true}, ...)`.  When the lock is unavailable the callback receives null and
returns after a local log line.  When the lock is acquired, `signinSilent`
runs; on a user it posts the renewal broadcast and holds the lock for a
30 * 1000 ms cooldown; on no user it calls `signinRedirect`; on a rejection
the error is logged.  In every acquired branch the lock is released when the
callback finishes (the `finally` only logs). -/
def onRenew (lockAvailable : Bool) (res : SilentResult) : List RenewAction :=
  if !lockAvailable then
    [RenewAction.logLockUnavailable]
  else
    RenewAction.silentRenewCall ::
      match res with
      | SilentResult.user =>
          [RenewAction.storeToken, RenewAction.postRenewal,
           RenewAction.cooldownHold (30 * 1000), RenewAction.releaseLock]
      | SilentResult.noUser =>
          [RenewAction.signinRedirect, RenewAction.releaseLock]
      | SilentResult.failure =>
          [RenewAction.logRenewError, RenewAction.releaseLock]

/-- Multi-tab state for a run of token-expiring events inside one cooldown
window: whether the `auth-renewal` Web Lock is currently held, and the log of
(tab id, actions that tab performed). -/
structure RenewSystem where
  lockHeld : Bool
  log : List (Nat × List RenewAction)
  deriving DecidableEq, Repr

/-- One tab receives the token-expiring event.  The Web Locks request with
`ifAvailable: true` returns immediately: if the lock is free the tab
acquires it and runs the acquired branch of `onRenew` (its renewal succeeds
and it then holds the lock for the 30 s cooldown, which outlasts the
window being modelled, so the lock stays held); otherwise the tab runs the
unavailable branch. -/
def expiryEventStep (s : RenewSystem) (tab : Nat) : RenewSystem :=
  if s.lockHeld then
    { s with log := s.log ++ [(tab, onRenew false SilentResult.user)] }
  else
    { lockHeld := true, log := s.log ++ [(tab, onRenew true SilentResult.user)] }

/-- Run of token-expiring events for the listed tabs, all arriving within
one cooldown window, starting from a free lock. -/
def runExpiryEvents (tabs : List Nat) : RenewSystem :=
  tabs.foldl expiryEventStep { lockHeld := false, log := [] }

/-- Total number of silent-renewal network calls recorded across all tabs. -/
def renewCallCount (s : RenewSystem) : Nat :=
  (s.log.map fun e => e.2.count RenewAction.silentRenewCall).sum

/-- Checks whether an action list contains a cooldown hold of any length. -/
def hasCooldown (l : List RenewAction) : Bool :=
  l.any fun a =>
    match a with
    | RenewAction.cooldownHold _ => true
    | _ => false

/-- Outcome of the HEAD existence probe issued by `checkSession` in
useStream: the fetch resolved with an ok response, resolved with a non-ok
response, or rejected. -/
inductive ProbeOutcome
  | respOk
  | respNotOk
  | fetchThrew
  deriving DecidableEq, Repr

/-- Embedding of `checkSession` (useStream): HEAD request against the
session sign_in path; returns `response.ok`, and false when the fetch
throws (the catch logs and returns false). -/
def checkSession (p : ProbeOutcome) : Bool :=
  match p with
  | ProbeOutcome.respOk => true
  | ProbeOutcome.respNotOk => false
  | ProbeOutcome.fetchThrew => false

/-- Observable steps of the `connect` function inside the useStream effect:
showing the session-no-longer-available notification, invoking the
session-start mutation (`startNewSessionRef.current()`), calling
`AppStreamer.connect`, and the catch branch setting the error and clearing
the loading flag. -/
inductive StreamAction
  | showStaleNotice
  | startNewSession
  | connectRemote
  | setStreamError
  | setLoadingFalse
  deriving DecidableEq, Repr

/-- Outcome of the `AppStreamer.connect` call (opaque remote transport):
the promise resolves, or it rejects and control reaches the catch block. -/
inductive ConnectOutcome
  | success
  | failed
  deriving DecidableEq, Repr

/-- Embedding of `connect` (useStream): probe the session first; if the
probe fails show the stale-session notification and trigger exactly one
session-creation attempt, then return without connecting; otherwise call
`AppStreamer.connect`, with the catch branch on rejection. -/
def connectRun (p : ProbeOutcome) (res : ConnectOutcome) : List StreamAction :=
  if checkSession p = false then
    [StreamAction.showStaleNotice, StreamAction.startNewSession]
  else
    match res with
    | ConnectOutcome.success => [StreamAction.connectRemote]
    | ConnectOutcome.failed =>
        [StreamAction.connectRemote, StreamAction.setStreamError,
         StreamAction.setLoadingFalse]

/-- Embedding of one invocation of the useStream effect body: the guard
returns immediately when sessionId is empty or when the `initialized` ref is
already set; otherwise it sets the ref synchronously (before any await) and
launches the connect run.  Returns the new ref value and the actions
performed. -/
def streamEffectInvoke (sessionId : String) (p : ProbeOutcome)
    (res : ConnectOutcome) (initialized : Bool) : Bool × List StreamAction :=
  if sessionId = "" then (initialized, [])
  else if initialized then (initialized, [])
  else (true, connectRun p res)

/-- Run of n successive invocations of the useStream effect for the same
session identifier (re-renders or duplicate effect triggers arriving before
the first run completes), starting from an unset ref. -/
def streamEffectRun (sessionId : String) (p : ProbeOutcome)
    (res : ConnectOutcome) : Nat → Bool × List StreamAction
  | 0 => (false, [])
  | n + 1 =>
      let prev := streamEffectRun sessionId p res n
      let step := streamEffectInvoke sessionId p res prev.1
      (step.1, prev.2 ++ step.2)

/-- State of the opaque remote streaming transport as seen by terminate:
whether a connection was ever established. -/
structure Transport where
  connected : Bool
  deriving DecidableEq, Repr

/-- Completion of an async call: the promise resolved or rejected. -/
inductive TermOutcome
  | resolved
  | rejected
  deriving DecidableEq, Repr

/-- Modelled from the spec: `AppStreamer.terminate` of the opaque remote
streaming transport returns an async completion.  When no connection was
ever established the call rejects locally without any remote call; when
connected it makes one remote call whose completion is the given outcome.
Returns the completion and the number of remote calls made. -/
def transportTerminate (t : Transport) (remote : TermOutcome) : TermOutcome × Nat :=
  if t.connected then (remote, 1) else (TermOutcome.rejected, 0)

/-- Result of the hook-level terminate: whether an exception escaped to the
caller, how many remote terminate calls were made, and whether the catch
branch recorded the error. -/
structure TerminateResult where
  threw : Bool
  remoteCalls : Nat
  errorLogged : Bool
  deriving DecidableEq, Repr

/-- Embedding of the `terminate` callback of useStream:
`try { await AppStreamer.terminate(true) } catch { setError; console.error }`.
The catch swallows every rejection, so no exception ever escapes. -/
def hookTerminate (t : Transport) (remote : TermOutcome) : TerminateResult :=
  let call := transportTerminate t remote
  match call.1 with
  | TermOutcome.resolved =>
      { threw := false, remoteCalls := call.2, errorLogged := false }
  | TermOutcome.rejected =>
      { threw := false, remoteCalls := call.2, errorLogged := true }

/-- Observable steps of the `terminate` handler of the AppStream page. -/
inductive PageAction
  | showStoppingNotice
  | hookTerminateCall
  | closeWindow
  | navigateHome
  deriving DecidableEq, Repr

/-- Embedding of `terminate` (AppStream page): after the confirmation
dialog it shows the stopping notification and runs
`try { await stream.terminate() } finally { window.close(); navigate("/") }`;
the finally block runs the close and navigate steps whatever the terminate
attempt did, so the trace is independent of the transport state and of the
remote completion. -/
def pageTerminate (confirmed : Bool) (t : Transport) (remote : TermOutcome) :
    List PageAction :=
  if confirmed then
    [PageAction.showStoppingNotice, PageAction.hookTerminateCall,
     PageAction.closeWindow, PageAction.navigateHome]
  else []

/-- Outcome of one `startSession` backend call made by the useStreamStart
mutation: the promise resolves with a created session (carrying its id) or
rejects. -/
inductive AttemptOutcome
  | created (sessionId : String)
  | fail
  deriving DecidableEq, Repr

/-- Observable steps of the useStreamStart mutation: the
taking-longer-than-expected notification shown by `showStreamWarning` (which
replaces any previous stream-start notification), the `onSuccess` navigation
to the new session address, and the `onError` log plus notification hide. -/
inductive StartEvent
  | warnTakingLonger
  | navigate (url : String)
  | logStartFailure
  | hideStartNotice
  deriving DecidableEq, Repr

/-- Embedding of the useStreamStart mutation under its retry driver
(modelled from the spec and the mutation library's documented retry
semantics: after each failed attempt the `retry` callback receives the
number of earlier failures, starting at 0, and a true return schedules one
more attempt).  The source's callback runs `showStreamWarning()`
unconditionally and returns `failureCount < 3`; `onSuccess` navigates to
`/app/.../sessions/...`; `onError` logs and hides the notification. -/
def runStreamStart (appId : String) : Nat → List AttemptOutcome → List StartEvent
  | _, [] => []
  | failureCount, attempt :: rest =>
    match attempt with
    | AttemptOutcome.created sid =>
        [StartEvent.navigate ("/app/" ++ appId ++ "/sessions/" ++ sid)]
    | AttemptOutcome.fail =>
        StartEvent.warnTakingLonger ::
          (if failureCount < 3 then runStreamStart appId (failureCount + 1) rest
           else [StartEvent.logStartFailure, StartEvent.hideStartNotice])

/-- Session-related configuration values from the Config schema
(ConfigProvider): maximum session TTL, the remaining-time threshold at
which the session-end notification is shown, and how long that
notification stays visible, all in seconds. -/
structure SessionsConfig where
  maxTtl : Int
  sessionEndNotificationTime : Int
  sessionEndNotificationDuration : Int
  deriving DecidableEq, Repr

/-- Defaults declared in the Config schema: maxTtl 28800 s,
sessionEndNotificationTime 600 s, sessionEndNotificationDuration 30 s. -/
def defaultSessionsConfig : SessionsConfig :=
  { maxTtl := 28800, sessionEndNotificationTime := 600,
    sessionEndNotificationDuration := 30 }

/-- Content of the session-end warning message: "closed soon" when the
remaining time is not positive, otherwise the remaining time broken into
minutes and seconds (the formatDuration output). -/
inductive EndMessage
  | soon
  | closingIn (minutes : Int) (seconds : Int)
  deriving DecidableEq, Repr

/-- Embedding of one timer-tick body of useStreamEndNotification, with time
in whole seconds: diff is the number of seconds from now until
startDate + maxTtl; when diff minus the notification threshold is ≤ 0 the
warning fires, saying "soon" when diff ≤ 0 and otherwise the remaining
minutes and seconds; otherwise nothing happens on this tick. -/
def endTick (cfg : SessionsConfig) (startDate now : Int) : Option EndMessage :=
  let diff : Int := startDate + cfg.maxTtl - now
  if diff - cfg.sessionEndNotificationTime ≤ 0 then
    some (if diff ≤ 0 then EndMessage.soon
          else EndMessage.closingIn (diff / 60) (diff % 60))
  else
    none

/-- Boolean form of the firing condition of `endTick`. -/
def firesAt (cfg : SessionsConfig) (startDate now : Int) : Bool :=
  decide (startDate + cfg.maxTtl - cfg.sessionEndNotificationTime ≤ now)

/-- One timer tick as seen by the mounted hook: the session identifier the
view currently shows, that session's start time, and the current time. -/
structure TickEvent where
  sid : String
  startDate : Int
  now : Int
  deriving DecidableEq, Repr

/-- State of the mounted useStreamEndNotification hook: the
`notificationSent` useState flag, which is scoped to the component
instance (it is not reset when the session identifier changes), and the
log of fired warnings tagged with the session identifier current at firing
time. -/
structure WatcherState where
  notificationSent : Bool
  fired : List (String × EndMessage)
  deriving DecidableEq, Repr

/-- Embedding of the effect guard and tick body of
useStreamEndNotification: once `notificationSent` is set every further tick
is a no-op (the effect returns early and the interval was cleared);
otherwise the tick fires exactly when `endTick` produces a message, which
also sets `notificationSent`. -/
def watcherTick (cfg : SessionsConfig) (st : WatcherState) (e : TickEvent) :
    WatcherState :=
  if st.notificationSent then st
  else
    match endTick cfg e.startDate e.now with
    | none => st
    | some m => { notificationSent := true, fired := st.fired ++ [(e.sid, m)] }

/-- Run of the mounted hook over a sequence of timer ticks (possibly
spanning a change of session identifier under the same mounted view). -/
def watcherRun (cfg : SessionsConfig) (events : List TickEvent) : WatcherState :=
  events.foldl (watcherTick cfg) { notificationSent := false, fired := [] }

/-- Status enumeration of the StreamingSession schema (Sessions.ts). -/
inductive SessionStatus
  | connecting
  | active
  | idle
  | stopped
  deriving DecidableEq, Repr

/-- Application metadata nested in the StreamingSession schema. -/
structure SessionApp where
  id : String
  title : String
  productArea : String
  version : String
  deriving DecidableEq, Repr

/-- The StreamingSession record validated by the zod schema in Sessions.ts
(dates as whole-second timestamps). -/
structure StreamingSession where
  id : String
  functionId : String
  functionVersionId : String
  userId : String
  userName : String
  status : SessionStatus
  startDate : Int
  endDate : Option Int
  app : Option SessionApp
  deriving DecidableEq, Repr

/-- An HTTP response as the wrappers in Sessions.ts observe it: the ok
flag, the numeric status, the result of validating the JSON body against
the zod schema (none when validation would fail), and the body text used
in error messages. -/
structure ApiResponse (α : Type) where
  ok : Bool
  status : Nat
  parsed : Option α
  text : String

/-- Errors a Sessions.ts wrapper can throw: an HttpError carrying its
message and the response status (util/Errors.ts), or a schema validation
error from parseAsync. -/
inductive ApiError
  | http (message : String) (status : Nat)
  | invalidBody
  deriving DecidableEq, Repr

/-- Embedding of `getSession` (Sessions.ts): on an ok response return the
validated body; otherwise throw an HttpError whose message interpolates the
status and body text and whose status field is the response status. -/
def getSession (r : ApiResponse StreamingSession) :
    Except ApiError StreamingSession :=
  if r.ok then
    match r.parsed with
    | some s => Except.ok s
    | none => Except.error ApiError.invalidBody
  else
    Except.error (ApiError.http
      ("Failed to load the session -- HTTP" ++ toString r.status ++ ".\n" ++ r.text)
      r.status)

/-- Embedding of `startSession` (Sessions.ts): POST, then the same ok /
not-ok split as `getSession` with its own message. -/
def startSession (r : ApiResponse StreamingSession) :
    Except ApiError StreamingSession :=
  if r.ok then
    match r.parsed with
    | some s => Except.ok s
    | none => Except.error ApiError.invalidBody
  else
    Except.error (ApiError.http
      ("Failed to start the session -- HTTP" ++ toString r.status ++ ".\n" ++ r.text)
      r.status)

/-- Embedding of `terminateSession` (Sessions.ts): DELETE, throw an
HttpError when the response is not ok, otherwise return unit without
reading the body. -/
def terminateSession (r : ApiResponse Unit) : Except ApiError Unit :=
  if !r.ok then
    Except.error (ApiError.http
      ("Failed to terminate the session -- HTTP" ++ toString r.status ++ ".\n" ++ r.text)
      r.status)
  else
    Except.ok ()

/-- Status of the HttpError thrown by a wrapper, when one was thrown. -/
def thrownHttpStatus {α : Type} (res : Except ApiError α) : Option Nat :=
  match res with
  | Except.error (ApiError.http _ s) => some s
  | _ => none

/-- Concrete StreamingSession value used in witnesses. -/
def sampleSession : StreamingSession :=
  { id := "sess-1", functionId := "fn-1", functionVersionId := "fnv-1",
    userId := "user-1", userName := "User One",
    status := SessionStatus.active, startDate := 0,
    endDate := none, app := none }

/-- Folding further expiry events from a state in which the lock is already
held only appends unavailable-branch entries and keeps the lock held. -/
theorem foldl_expiry_locked (tabs : List Nat) (s : RenewSystem)
    (h : s.lockHeld = true) :
    tabs.foldl expiryEventStep s =
      { lockHeld := true,
        log := s.log ++ tabs.map fun t => (t, [RenewAction.logLockUnavailable]) } := by
  induction tabs generalizing s with
  | nil =>
      cases s
      simp_all
  | cons t ts ih =>
      have hstep : expiryEventStep s t =
          { lockHeld := true,
            log := s.log ++ [(t, [RenewAction.logLockUnavailable])] } := by
        cases s
        simp_all [expiryEventStep, onRenew]
      rw [List.foldl_cons, hstep, ih _ rfl]
      simp

/-- Unavailable-branch log entries contribute no silent-renewal calls. -/
theorem losers_contribute_zero (tabs : List Nat) :
    ((tabs.map fun t => ((t, [RenewAction.logLockUnavailable]) : Nat × List RenewAction)).map
        fun e => e.2.count RenewAction.silentRenewCall).sum = 0 := by
  induction tabs with
  | nil => rfl
  | cons t ts ih => simpa using ih

/-- C1: for every set of N tabs (N ≥ 1, modelled as the list t :: rest) that
each receive a token-expiring event within the cooldown window, exactly one
silent-renewal network call is made across all tabs: the first tab acquires
the non-blocking auth-renewal lock and calls signinSilent, and every tab
whose acquisition returns unavailable performs only the local log (no
refresh call, no retry, no redirect). -/
theorem renewal_exactly_one_call (t : Nat) (rest : List Nat) :
    (runExpiryEvents (t :: rest)).log =
        (t, onRenew true SilentResult.user)
          :: rest.map (fun r => (r, [RenewAction.logLockUnavailable]))
      ∧ renewCallCount (runExpiryEvents (t :: rest)) = 1
      ∧ RenewAction.silentRenewCall ∈ onRenew true SilentResult.user := by
  have hfirst : expiryEventStep { lockHeld := false, log := [] } t =
      { lockHeld := true, log := [(t, onRenew true SilentResult.user)] } := by
    simp [expiryEventStep]
  have hrun : runExpiryEvents (t :: rest) =
      { lockHeld := true,
        log := (t, onRenew true SilentResult.user)
          :: rest.map fun r => (r, [RenewAction.logLockUnavailable]) } := by
    unfold runExpiryEvents
    rw [List.foldl_cons, hfirst, foldl_expiry_locked _ _ rfl]
    simp
  refine ⟨by rw [hrun], ?_, by decide⟩
  rw [hrun, renewCallCount]
  simp only [List.map_cons, List.sum_cons]
  rw [losers_contribute_zero]
  decide

/-- C5: when the lock is acquired and the silent refresh returns a user, the
coordinator performs, in this order: store the renewed token (done by the
identity library inside signinSilent before it resolves), publish the
renewal broadcast message, hold the lock for the 30-second (30 * 1000 ms)
cooldown, and only then release it. -/
theorem renewal_success_order :
    onRenew true SilentResult.user =
      [RenewAction.silentRenewCall, RenewAction.storeToken, RenewAction.postRenewal,
       RenewAction.cooldownHold (30 * 1000), RenewAction.releaseLock] := by
  decide

/-- C6: when the lock is acquired and the silent refresh returns no user,
the tab is redirected to full interactive re-authentication; on any other
refresh failure the error is logged and the lock is released without any
cooldown hold and without a redirect. -/
theorem renewal_failure_paths :
    onRenew true SilentResult.noUser =
        [RenewAction.silentRenewCall, RenewAction.signinRedirect, RenewAction.releaseLock]
      ∧ onRenew true SilentResult.failure =
        [RenewAction.silentRenewCall, RenewAction.logRenewError, RenewAction.releaseLock]
      ∧ hasCooldown (onRenew true SilentResult.failure) = false
      ∧ RenewAction.signinRedirect ∉ onRenew true SilentResult.failure := by
  decide

/-- Running further useStream effect invocations once the initialized ref is
set performs no actions. -/
theorem streamEffectInvoke_initialized (sessionId : String) (p : ProbeOutcome)
    (res : ConnectOutcome) :
    streamEffectInvoke sessionId p res true = (true, []) := by
  unfold streamEffectInvoke
  split
  · rfl
  · rfl

/-- C2: for every lifecycle run whose pre-connect existence probe fails
(non-ok HEAD response or a thrown fetch), the controller never calls the
remote transport connect, shows the session-no-longer-available
notification, and triggers exactly one session-creation attempt. -/
theorem probe_failure_no_connect (p : ProbeOutcome) (res : ConnectOutcome)
    (h : checkSession p = false) :
    (connectRun p res).count StreamAction.startNewSession = 1
      ∧ StreamAction.connectRemote ∉ connectRun p res
      ∧ StreamAction.showStaleNotice ∈ connectRun p res := by
  simp only [connectRun, h, if_pos]
  decide

/-- Witness for C2 at the concrete probe outcome of a non-ok response. -/
theorem probe_failure_no_connect_witness :
    (connectRun ProbeOutcome.respNotOk ConnectOutcome.success).count
        StreamAction.startNewSession = 1
      ∧ StreamAction.connectRemote ∉
          connectRun ProbeOutcome.respNotOk ConnectOutcome.success
      ∧ StreamAction.showStaleNotice ∈
          connectRun ProbeOutcome.respNotOk ConnectOutcome.success :=
  probe_failure_no_connect ProbeOutcome.respNotOk ConnectOutcome.success (by decide)

/-- C3: invoking the lifecycle start effect any number n ≥ 1 of times in
succession for the same non-empty session identifier yields exactly the
actions of one connect run and exactly one remote connect call (probe ok),
and an invocation arriving while the identifier is already initialized is a
no-op. -/
theorem stream_start_idempotent (sessionId : String) (p : ProbeOutcome)
    (res : ConnectOutcome) (n : Nat) (hs : sessionId ≠ "")
    (hp : checkSession p = true) (hn : 1 ≤ n) :
    streamEffectRun sessionId p res n = (true, connectRun p res)
      ∧ (streamEffectRun sessionId p res n).2.count StreamAction.connectRemote = 1
      ∧ streamEffectInvoke sessionId p res true = (true, []) := by
  obtain ⟨m, rfl⟩ : ∃ m, n = m + 1 := ⟨n - 1, by omega⟩
  have hrun : ∀ k, streamEffectRun sessionId p res (k + 1) = (true, connectRun p res) := by
    intro k
    induction k with
    | zero =>
        simp [streamEffectRun, streamEffectInvoke, hs]
    | succ j ih =>
        rw [streamEffectRun]
        rw [ih]
        rw [streamEffectInvoke_initialized]
        simp
  have hcount : (connectRun p res).count StreamAction.connectRemote = 1 := by
    cases p with
    | respOk => cases res <;> simp [connectRun, checkSession]
    | respNotOk => simp [checkSession] at hp
    | fetchThrew => simp [checkSession] at hp
  exact ⟨hrun m, by rw [hrun m]; exact hcount, streamEffectInvoke_initialized _ _ _⟩

/-- Witness for C3: two back-to-back invocations for one identifier. -/
theorem stream_start_idempotent_witness :
    streamEffectRun "session-1" ProbeOutcome.respOk ConnectOutcome.success 2 =
        (true, connectRun ProbeOutcome.respOk ConnectOutcome.success)
      ∧ (streamEffectRun "session-1" ProbeOutcome.respOk ConnectOutcome.success 2).2.count
          StreamAction.connectRemote = 1
      ∧ streamEffectInvoke "session-1" ProbeOutcome.respOk ConnectOutcome.success true =
          (true, []) :=
  stream_start_idempotent "session-1" ProbeOutcome.respOk ConnectOutcome.success 2
    (by decide) (by decide) (by decide)

/-- C4: terminate never lets an exception escape, makes no remote call when
no connection was ever established, and (page-level, after confirmation)
the window-close and navigate cleanup steps are always performed, including
when the remote terminate call rejects. -/
theorem terminate_safe (t : Transport) (remote : TermOutcome) :
    (hookTerminate t remote).threw = false
      ∧ (t.connected = false → (hookTerminate t remote).remoteCalls = 0)
      ∧ PageAction.closeWindow ∈ pageTerminate true t remote
      ∧ PageAction.navigateHome ∈ pageTerminate true t remote := by
  rcases t with ⟨c⟩
  cases c <;> cases remote <;> decide

/-- Witness for C4 at a transport that never connected and a rejecting
remote terminate. -/
theorem terminate_safe_witness :
    (hookTerminate { connected := false } TermOutcome.rejected).threw = false
      ∧ (hookTerminate { connected := false } TermOutcome.rejected).remoteCalls = 0
      ∧ PageAction.closeWindow ∈
          pageTerminate true { connected := false } TermOutcome.rejected
      ∧ PageAction.navigateHome ∈
          pageTerminate true { connected := false } TermOutcome.rejected := by
  have h := terminate_safe { connected := false } TermOutcome.rejected
  exact ⟨h.1, h.2.1 rfl, h.2.2.1, h.2.2.2⟩

/-- Ticks strictly before the firing threshold produce no warning. -/
theorem endTick_none_of (cfg : SessionsConfig) (s n : Int)
    (h : n < s + cfg.maxTtl - cfg.sessionEndNotificationTime) :
    endTick cfg s n = none := by
  simp only [endTick]
  rw [if_neg (by omega)]

/-- Ticks at or after the firing threshold produce the warning, saying
"soon" exactly when the remaining time is not positive and otherwise the
remaining minutes and seconds. -/
theorem endTick_some_of (cfg : SessionsConfig) (s n : Int)
    (h : s + cfg.maxTtl - cfg.sessionEndNotificationTime ≤ n) :
    endTick cfg s n =
      some (if s + cfg.maxTtl - n ≤ 0 then EndMessage.soon
            else EndMessage.closingIn ((s + cfg.maxTtl - n) / 60)
              ((s + cfg.maxTtl - n) % 60)) := by
  simp only [endTick]
  rw [if_pos (by omega)]

/-- Once the notificationSent flag is set, every further tick leaves the
watcher state unchanged. -/
theorem watcher_foldl_sent (cfg : SessionsConfig) (evs : List TickEvent)
    (st : WatcherState) (h : st.notificationSent = true) :
    evs.foldl (watcherTick cfg) st = st := by
  induction evs with
  | nil => rfl
  | cons e es ih =>
      rw [List.foldl_cons]
      have hstep : watcherTick cfg st e = st := by simp [watcherTick, h]
      rw [hstep]
      exact ih

/-- From an unfired state, a tick run fires exactly once when some tick is
at or past the threshold and never otherwise. -/
theorem watcher_foldl_fired (cfg : SessionsConfig) (evs : List TickEvent)
    (st : WatcherState) (h : st.notificationSent = false) :
    (evs.foldl (watcherTick cfg) st).fired.length =
      st.fired.length +
        (if evs.any (fun e => firesAt cfg e.startDate e.now) then 1 else 0) := by
  induction evs generalizing st with
  | nil => simp
  | cons e es ih =>
      rw [List.foldl_cons, List.any_cons]
      by_cases hf : firesAt cfg e.startDate e.now = true
      · have hle := of_decide_eq_true hf
        have hstep : watcherTick cfg st e =
            { notificationSent := true,
              fired := st.fired ++
                [(e.sid,
                  if e.startDate + cfg.maxTtl - e.now ≤ 0 then EndMessage.soon
                  else EndMessage.closingIn ((e.startDate + cfg.maxTtl - e.now) / 60)
                    ((e.startDate + cfg.maxTtl - e.now) % 60))] } := by
          simp [watcherTick, h, endTick_some_of cfg e.startDate e.now hle]
        rw [hstep, watcher_foldl_sent cfg es _ rfl]
        simp [hf]
      · have hf' : firesAt cfg e.startDate e.now = false := by
          exact Bool.not_eq_true _ ▸ Bool.of_not_eq_true hf
        have hlt : e.now < e.startDate + cfg.maxTtl - cfg.sessionEndNotificationTime := by
          have := of_decide_eq_false hf'
          omega
        have hstep : watcherTick cfg st e = st := by
          simp [watcherTick, h, endTick_none_of cfg e.startDate e.now hlt]
        rw [hstep, ih st h]
        simp [hf']

/-- C7: session creation retries on failure up to the fixed bound of three
retry attempts after the initial call, surfacing the taking-longer warning
on every failure: when create-session fails twice and succeeds on the third
attempt, exactly two warnings are shown before success and the user is
navigated to the new session address; when every attempt fails, exactly
four attempts are consumed (the initial one plus three retries), each shows
the warning, and the flow ends with the terminal error log and the
notification being hidden. -/
theorem session_start_retry_bound (appId sid : String) (m : Nat) :
    runStreamStart appId 0
        [AttemptOutcome.fail, AttemptOutcome.fail, AttemptOutcome.created sid] =
        [StartEvent.warnTakingLonger, StartEvent.warnTakingLonger,
         StartEvent.navigate ("/app/" ++ appId ++ "/sessions/" ++ sid)]
      ∧ runStreamStart appId 0 (List.replicate (m + 4) AttemptOutcome.fail) =
        [StartEvent.warnTakingLonger, StartEvent.warnTakingLonger,
         StartEvent.warnTakingLonger, StartEvent.warnTakingLonger,
         StartEvent.logStartFailure, StartEvent.hideStartNotice] := by
  constructor
  · rfl
  · have h : List.replicate (m + 4) AttemptOutcome.fail =
        AttemptOutcome.fail :: AttemptOutcome.fail :: AttemptOutcome.fail ::
          AttemptOutcome.fail :: List.replicate m AttemptOutcome.fail := rfl
    rw [h]
    rfl

/-- C8: with the default configuration (maxTtl 28800 s, threshold 600 s)
and a session started at t0, no warning is produced while the current time
is before t0 + 28200; at or after t0 + 28200 the tick produces the warning,
whose message is "soon" exactly when the remaining time is not positive and
otherwise states the remaining minutes and seconds; and over any tick
sequence the warning is shown exactly once when some tick is at or past
t0 + 28200 and never otherwise. -/
theorem expiry_warning_threshold (t0 now : Int) (ticks : List Int) :
    (now < t0 + 28200 → endTick defaultSessionsConfig t0 now = none)
      ∧ (t0 + 28200 ≤ now →
          endTick defaultSessionsConfig t0 now =
            some (if t0 + 28800 - now ≤ 0 then EndMessage.soon
                  else EndMessage.closingIn ((t0 + 28800 - now) / 60)
                    ((t0 + 28800 - now) % 60)))
      ∧ ((watcherRun defaultSessionsConfig
            (ticks.map fun t => { sid := "s", startDate := t0, now := t })).fired.length =
          if ticks.any (fun t => decide (t0 + 28200 ≤ t)) then 1 else 0) := by
  refine ⟨?_, ?_, ?_⟩
  · intro h
    exact endTick_none_of defaultSessionsConfig t0 now
      (by simp only [defaultSessionsConfig]; omega)
  · intro h
    rw [endTick_some_of defaultSessionsConfig t0 now
      (by simp only [defaultSessionsConfig]; omega)]
    simp only [defaultSessionsConfig]
  · unfold watcherRun
    rw [watcher_foldl_fired defaultSessionsConfig _ _ rfl]
    simp only [List.length_nil, Nat.zero_add]
    have hany : ((ticks.map fun t =>
          ({ sid := "s", startDate := t0, now := t } : TickEvent)).any
            fun e => firesAt defaultSessionsConfig e.startDate e.now) =
        ticks.any fun t => decide (t0 + 28200 ≤ t) := by
      induction ticks with
      | nil => rfl
      | cons t ts ih =>
          simp only [List.map_cons, List.any_cons, ih]
          congr 1
          simp only [firesAt, defaultSessionsConfig]
          rw [decide_eq_decide]
          omega
    rw [hany]

/-- Witness for C8: with t0 = 0, no warning at 28199 s, the timed warning
at 28200 s, and exactly one firing over the tick sequence [0, 28200]. -/
theorem expiry_warning_threshold_witness :
    endTick defaultSessionsConfig 0 28199 = none
      ∧ endTick defaultSessionsConfig 0 28200 =
          some (if (0 : Int) + 28800 - 28200 ≤ 0 then EndMessage.soon
                else EndMessage.closingIn (((0 : Int) + 28800 - 28200) / 60)
                  (((0 : Int) + 28800 - 28200) % 60))
      ∧ ((watcherRun defaultSessionsConfig
            ([0, 28200].map fun t => { sid := "s", startDate := 0, now := t })).fired.length =
          if [(0 : Int), 28200].any (fun t => decide ((0 : Int) + 28200 ≤ t)) then 1 else 0) :=
  ⟨(expiry_warning_threshold 0 28199 []).1 (by decide),
   (expiry_warning_threshold 0 28200 []).2.1 (by decide),
   (expiry_warning_threshold 0 0 [0, 28200]).2.2⟩

/-- C9 counterexample: the warned flag is NOT keyed by session identifier.
After the warning fires for session "A", a tick for a fresh session "B"
under the same mounted view crosses the threshold for "B"
(firesAt is true) yet no warning fires for "B": the fired log still only
contains the entry for "A", so the watcher does not re-arm on a session
identifier change. -/
theorem expiry_rearm_counterexample :
    firesAt defaultSessionsConfig 100000 128200 = true
      ∧ ((watcherRun defaultSessionsConfig
            [{ sid := "A", startDate := 0, now := 28200 },
             { sid := "B", startDate := 100000, now := 128200 }]).fired.map
          Prod.fst) = ["A"] := by
  decide

/-- C9 amended: the one-shot warned state is scoped to the mounted
component instance, not to the session identifier: over any tick sequence,
including ones spanning a change of session identifier, the warning fires
at most once, and once the flag is set every further tick (for any session
identifier) is a no-op. -/
theorem expiry_once_per_instance (cfg : SessionsConfig) (events : List TickEvent)
    (fs : List (String × EndMessage)) (e : TickEvent) :
    (watcherRun cfg events).fired.length ≤ 1
      ∧ watcherTick cfg { notificationSent := true, fired := fs } e =
          { notificationSent := true, fired := fs } := by
  constructor
  · unfold watcherRun
    rw [watcher_foldl_fired cfg events _ rfl]
    simp only [List.length_nil, Nat.zero_add]
    split <;> omega
  · simp [watcherTick]

/-- C10: each backend session API wrapper returns its validated result
(unit for terminateSession) when the HTTP response is ok, and the thrown
error is an HttpError carrying status c exactly when the response is not ok
and c is the response status; an HTTP-level failure has no other outcome. -/
theorem sessions_api_http_errors (r1 r2 : ApiResponse StreamingSession)
    (r3 : ApiResponse Unit) (s1 s2 : StreamingSession) (c : Nat) :
    (r1.ok = true → r1.parsed = some s1 → getSession r1 = Except.ok s1)
      ∧ (r2.ok = true → r2.parsed = some s2 → startSession r2 = Except.ok s2)
      ∧ (r3.ok = true → terminateSession r3 = Except.ok ())
      ∧ (thrownHttpStatus (getSession r1) = some c ↔ r1.ok = false ∧ c = r1.status)
      ∧ (thrownHttpStatus (startSession r2) = some c ↔ r2.ok = false ∧ c = r2.status)
      ∧ (thrownHttpStatus (terminateSession r3) = some c ↔ r3.ok = false ∧ c = r3.status) := by
  refine ⟨?_, ?_, ?_, ?_, ?_, ?_⟩
  · intro h1 h2
    simp [getSession, h1, h2]
  · intro h1 h2
    simp [startSession, h1, h2]
  · intro h1
    simp [terminateSession, h1]
  · rcases r1 with ⟨ok, status, parsed, text⟩
    cases ok
    · simp [getSession, thrownHttpStatus, eq_comm]
    · cases parsed <;> simp [getSession, thrownHttpStatus]
  · rcases r2 with ⟨ok, status, parsed, text⟩
    cases ok
    · simp [startSession, thrownHttpStatus, eq_comm]
    · cases parsed <;> simp [startSession, thrownHttpStatus]
  · rcases r3 with ⟨ok, status, parsed, text⟩
    cases ok
    · simp [terminateSession, thrownHttpStatus, eq_comm]
    · simp [terminateSession, thrownHttpStatus]

/-- Witness for C10: an ok getSession response returns the validated
session, a 503 startSession response surfaces an HttpError with status 503,
and an ok terminateSession response returns unit. -/
theorem sessions_api_http_errors_witness :
    getSession { ok := true, status := 200, parsed := some sampleSession, text := "" } =
        Except.ok sampleSession
      ∧ thrownHttpStatus
          (startSession { ok := false, status := 503, parsed := none, text := "oops" }) =
        some 503
      ∧ terminateSession { ok := true, status := 204, parsed := none, text := "" } =
        Except.ok () := by
  have h := sessions_api_http_errors
    { ok := true, status := 200, parsed := some sampleSession, text := "" }
    { ok := false, status := 503, parsed := none, text := "oops" }
    { ok := true, status := 204, parsed := none, text := "" }
    sampleSession sampleSession 503
  exact ⟨h.1 rfl rfl, h.2.2.2.2.1.mpr ⟨rfl, rfl⟩, h.2.2.1 rfl⟩
